import Mathlib

/-!
Shallow embedding of the authentication subsystem of the Naturist-online
repository (backend/src/services/authService.ts, the `authenticate` JWT
middleware, backend/src/middleware/errorHandler.ts and the auth controller).

The relational credential store is modelled as a list of user records keyed
by unique email (Prisma `users` table); `findUnique` becomes a first-match
lookup.  JavaScript objects returned to callers are modelled as association
lists of (field name, JSON value) pairs so that presence or absence of a
field (e.g. `password_hash`) is observable.  JWT signing is modelled
abstractly: a signed token records its payload and the secret used to sign
it; verification checks the secret and then the expiry, in the order the
`jsonwebtoken` library does.  Time is a `Nat` of Unix seconds.
-/

set_option autoImplicit false

namespace Naturist

/-- Prisma `Role` enum. -/
inductive Role where
  | USER
  | ADMIN
deriving DecidableEq, Repr

/-- Prisma `AuthProvider` enum. -/
inductive AuthProvider where
  | LOCAL
  | GOOGLE
  | FACEBOOK
  | APPLE
deriving DecidableEq, Repr

/-- String form of a role, as stored in JWT payloads and JSON responses. -/
def roleToString : Role → String
  | .USER => "USER"
  | .ADMIN => "ADMIN"

/-- String form of an auth provider, as it appears in JSON responses. -/
def providerToString : AuthProvider → String
  | .LOCAL => "LOCAL"
  | .GOOGLE => "GOOGLE"
  | .FACEBOOK => "FACEBOOK"
  | .APPLE => "APPLE"

/-- A row of the Prisma `users` table (the Credential Store record).
`avatar_url` is nullable; timestamps are Unix seconds. -/
structure UserRecord where
  id : Nat
  name : String
  email : String
  password_hash : String
  role : Role
  auth_provider : AuthProvider
  avatar_url : Option String
  email_verified : Bool
  created_at : Nat
  updated_at : Nat
deriving DecidableEq, Repr

/-- The credential store: the `users` table, unique-keyed by email. -/
abbrev Store := List UserRecord

/-- `prisma.users.findUnique({ where: { email } })`: first record with the
given email (the unique-key constraint makes first-match equal to the
unique match on well-formed stores). -/
def findByEmail : Store → String → Option UserRecord
  | [], _ => none
  | u :: rest, e => if u.email = e then some u else findByEmail rest e

/-- `prisma.users.findUnique({ where: { id } })`. -/
def findById : Store → Nat → Option UserRecord
  | [], _ => none
  | u :: rest, i => if u.id = i then some u else findById rest i

/-- `prisma.users.update({ where: { id }, data })`: replace the record with
the given id by the updated record. -/
def updateById : Store → Nat → UserRecord → Store
  | [], _, _ => []
  | u :: rest, i, v => if u.id = i then v :: rest else u :: updateById rest i v

/-! ## JavaScript objects

Responses and thrown error objects are dynamic JavaScript objects; we model
them as association lists so that field presence is observable. -/

/-- A JSON/JavaScript primitive value. -/
inductive JsonVal where
  | str (s : String)
  | num (n : Nat)
  | bool (b : Bool)
  | null
deriving DecidableEq, Repr

/-- A JavaScript object: ordered field list. -/
abbrev JsonObj := List (String × JsonVal)

/-- Property access `o[k]`: `none` models `undefined`. -/
def getField : JsonObj → String → Option JsonVal
  | [], _ => none
  | (k', v) :: rest, k => if k' = k then some v else getField rest k

/-- Whether the object has a field named `k` (the `k in o` test). -/
def hasField : JsonObj → String → Bool
  | [], _ => false
  | (k', _) :: rest, k => if k' = k then true else hasField rest k

/-- JavaScript assignment / spread-override `{...o, k: v}`: overwrite in
place if the key exists, else append. -/
def setField (o : JsonObj) (k : String) (v : JsonVal) : JsonObj :=
  if hasField o k then
    o.map (fun p => if p.1 = k then (k, v) else p)
  else
    o ++ [(k, v)]

/-! ## Error objects (middleware/errorHandler.ts) -/

/-- An `AppError` instance as a JavaScript object: `name` is the inherited
`Error` name, `isOperational` is set to `true` by the constructor. -/
def mkAppError (message : String) (statusCode : Nat) : JsonObj :=
  [("name", .str "Error"),
   ("message", .str message),
   ("statusCode", .num statusCode),
   ("isOperational", .bool true)]

/-- `createError(message, statusCode, errorType)`: builds an `AppError` and
attaches the `errorType` property (note: the property is named
`errorType`, not `type`). -/
def createError (message : String) (statusCode : Nat) (errorType : String) : JsonObj :=
  setField (mkAppError message statusCode) "errorType" (.str errorType)

/-- `unauthorized(message)` helper: a 401 `UNAUTHORIZED` error. -/
def unauthorized (message : String) : JsonObj :=
  createError message 401 "UNAUTHORIZED"

/-- What the client observes from the global error handler:
HTTP status plus the `error.type` and `error.message` of the JSON envelope. -/
structure HttpErrorResponse where
  status : Nat
  type : String
  message : String
deriving DecidableEq, Repr

/-- JavaScript truthiness of an optional string (`undefined`/`null`/`''`
are falsy). -/
def strTruthy : Option String → Bool
  | none => false
  | some s => !(s == "")

/-- The global `errorHandler` middleware: maps a thrown error object to the
HTTP response the client observes.  Mirrors the branch chain of
errorHandler.ts (ValidationError, Prisma P2002, JsonWebTokenError,
TokenExpiredError, operational errors, fallback). -/
def errorHandler (err : JsonObj) : HttpErrorResponse :=
  let statusCode : Nat :=
    match getField err "statusCode" with
    | some (.num n) => if n = 0 then 500 else n
    | _ => 500
  if getField err "name" = some (.str "ValidationError") then
    { status := 400, type := "VALIDATION_ERROR", message := "Error de validación" }
  else if getField err "code" = some (.str "P2002") then
    { status := 409, type := "CONFLICT", message := "El recurso ya existe" }
  else if getField err "name" = some (.str "JsonWebTokenError") then
    { status := 401, type := "UNAUTHORIZED", message := "Token inválido" }
  else if getField err "name" = some (.str "TokenExpiredError") then
    { status := 401, type := "UNAUTHORIZED", message := "Token expirado" }
  else if getField err "isOperational" = some (.bool true) then
    { status := statusCode,
      type :=
        match getField err "errorType" with
        | some (.str t) => if t.isEmpty then "INTERNAL_SERVER_ERROR" else t
        | _ => "INTERNAL_SERVER_ERROR",
      message :=
        match getField err "message" with
        | some (.str m) => m
        | _ => "Error interno del servidor" }
  else
    { status := statusCode, type := "INTERNAL_SERVER_ERROR", message := "Error interno del servidor" }

/-! ## Token Issuer (jsonwebtoken sign/verify as used by the code) -/

/-- Decoded JWT payload: `{ userId, role, iat }` as placed by
`generateToken`, plus the `exp` claim added by `jwt.sign`'s `expiresIn`. -/
structure JwtPayload where
  userId : String
  role : String
  iat : Nat
  exp : Nat
deriving DecidableEq, Repr

/-- A token in transit: either a malformed string, or a compact JWT whose
signature binds a payload to the secret it was signed with. -/
inductive Token where
  | malformed
  | signed (payload : JwtPayload) (secretUsed : String)
deriving DecidableEq, Repr

/-- The three rejection outcomes of `jwt.verify`: `TokenExpiredError`,
`JsonWebTokenError` with message `invalid signature`, and
`JsonWebTokenError` with message `jwt malformed`. -/
inductive JwtError where
  | tokenExpired
  | invalidSignature
  | malformedJwt
deriving DecidableEq, Repr

/-- `jwt.verify(token, secret)` at clock time `now`: a malformed token is
rejected as malformed; then the signature is checked against the secret;
only a well-formed, correctly signed token can be rejected as expired
(`clockTimestamp >= exp`). -/
def jwtVerify (t : Token) (secret : String) (now : Nat) : Except JwtError JwtPayload :=
  match t with
  | .malformed => .error .malformedJwt
  | .signed p secretUsed =>
    if secretUsed = secret then
      if p.exp ≤ now then .error .tokenExpired else .ok p
    else
      .error .invalidSignature

/-- `generateToken(userId, role)` of authService.ts: payload
`{ userId: userId.toString(), role, iat: now }` signed HS256 with the
server secret; `jwt.sign`'s `expiresIn = 7*24*60*60` seconds sets
`exp = iat + 604800`. -/
def generateToken (userId : Nat) (role : String) (secret : String) (now : Nat) : Token :=
  Token.signed
    { userId := toString userId
      role := role
      iat := now
      exp := now + 7 * 24 * 60 * 60 }
    secret

/-- Result of the `authenticate` middleware: either the claims attached to
`req.user`, or the error object passed to `next`. -/
inductive AuthenticateResult where
  | ok (userId : String) (role : String) (iat : Nat) (exp : Nat)
  | err (e : JsonObj)
deriving DecidableEq, Repr

/-- The `authenticate` middleware: given the token recovered from the
`Authorization` header or the `token` cookie (`none` when absent), verify
it and attach `{userId, role, iat, exp}` to the request.  On failure,
`TokenExpiredError` maps to 401 "Token expirado" and any other
`JsonWebTokenError` (bad signature or malformed) to 401 "Token inválido". -/
def authenticate (token : Option Token) (secret : String) (now : Nat) : AuthenticateResult :=
  match token with
  | none => .err (unauthorized "No se proporcionó un token de autenticación")
  | some t =>
    match jwtVerify t secret now with
    | .ok d => .ok d.userId d.role d.iat d.exp
    | .error .tokenExpired => .err (unauthorized "Token expirado")
    | .error .invalidSignature => .err (unauthorized "Token inválido")
    | .error .malformedJwt => .err (unauthorized "Token inválido")

/-! ## Password Hasher (bcrypt as used by the code)

bcrypt verification re-hashes the plaintext with the salt embedded in the
stored hash and compares; we model the salted one-way hash abstractly as an
injective tagging function, which preserves exactly the property the code
relies on: `compare(p, hash(p)) = true`, and `compare(p, h) = false`
whenever `h` is not the hash of `p`. -/

/-- `bcrypt.hash(plaintext, 10)` (salt rounds fixed by `BCRYPT_CONFIG`). -/
def bcryptHash (plaintext : String) : String :=
  "$2b$10$" ++ plaintext

/-- `bcrypt.compare(plaintext, hash)`. -/
def bcryptCompare (plaintext hash : String) : Bool :=
  bcryptHash plaintext == hash

/-! ## User views (the JavaScript objects returned by the Auth Service) -/

/-- `user.avatar_url || null`: an empty or missing avatar collapses to null. -/
def avatarOrNull (o : Option String) : JsonVal :=
  match o with
  | none => .null
  | some a => if a == "" then .null else .str a

/-- Raw nullable column value as selected by Prisma. -/
def optStrVal : Option String → JsonVal
  | none => .null
  | some s => .str s

/-- The `userResponse` object built by `loginUser` (authService.ts): every
field listed explicitly, `avatar_url` passed through as-is when the column
exists, `email_verified ?? false`.  No `password_hash` key is written. -/
def loginUserView (u : UserRecord) : JsonObj :=
  [("id", .num u.id),
   ("name", .str u.name),
   ("email", .str u.email),
   ("role", .str (roleToString u.role)),
   ("auth_provider", .str (providerToString u.auth_provider)),
   ("created_at", .num u.created_at),
   ("updated_at", .num u.updated_at),
   ("avatar_url", optStrVal u.avatar_url),
   ("email_verified", .bool u.email_verified)]

/-- The `userResponse` object built by `findOrCreateGoogleUser`: same
explicit field list but with `avatar_url: user.avatar_url || null`. -/
def googleUserView (u : UserRecord) : JsonObj :=
  [("id", .num u.id),
   ("name", .str u.name),
   ("email", .str u.email),
   ("role", .str (roleToString u.role)),
   ("auth_provider", .str (providerToString u.auth_provider)),
   ("created_at", .num u.created_at),
   ("updated_at", .num u.updated_at),
   ("avatar_url", avatarOrNull u.avatar_url),
   ("email_verified", .bool u.email_verified)]

/-- The user object returned by `registerUser`: the transaction's `select`
result (7 fields, no `password_hash`), spread-extended with
`avatar_url: null` and `email_verified: false`, then spread again in the
final response with `avatar_url: user.avatar_url || null` and
`email_verified: user.email_verified ?? false`. -/
def registerUserView (u : UserRecord) : JsonObj :=
  let base : JsonObj :=
    [("id", .num u.id),
     ("name", .str u.name),
     ("email", .str u.email),
     ("role", .str (roleToString u.role)),
     ("auth_provider", .str (providerToString u.auth_provider)),
     ("created_at", .num u.created_at),
     ("updated_at", .num u.updated_at)]
  let txResult := setField (setField base "avatar_url" .null) "email_verified" (.bool false)
  setField (setField txResult "avatar_url" .null) "email_verified" (.bool false)

/-- The object returned by `getUserProfile`: the Prisma `select` result —
which explicitly includes `password_hash: true` — spread with defaulted
`avatar_url` and `email_verified`. -/
def profileView (u : UserRecord) : JsonObj :=
  let sel : JsonObj :=
    [("id", .num u.id),
     ("name", .str u.name),
     ("email", .str u.email),
     ("password_hash", .str u.password_hash),
     ("role", .str (roleToString u.role)),
     ("auth_provider", .str (providerToString u.auth_provider)),
     ("created_at", .num u.created_at),
     ("updated_at", .num u.updated_at),
     ("avatar_url", optStrVal u.avatar_url),
     ("email_verified", .bool u.email_verified)]
  setField (setField sel "avatar_url" (avatarOrNull u.avatar_url)) "email_verified" (.bool u.email_verified)

/-! ## Auth Service operations (authService.ts)

Each operation threads the credential store explicitly; a thrown `AppError`
becomes `Except.error` carrying the error object.  Fresh autoincrement ids
and the current clock are parameters. -/

/-- `registerUser(name, email, password)`: reject a duplicate email with
`AUTH_ERRORS.EMAIL_ALREADY_EXISTS`, else hash the password and create one
record with `role: USER`, `auth_provider: LOCAL`, `email_verified: false`,
then issue a token for the new id and role. -/
def registerUser (store : Store) (name email password : String)
    (secret : String) (now freshId : Nat) :
    Store × Except JsonObj (Token × JsonObj) :=
  match findByEmail store email with
  | some _ =>
    (store, .error (createError "El correo electrónico ya está registrado" 400 "AUTH_ERROR"))
  | none =>
    let newUser : UserRecord :=
      { id := freshId
        name := name
        email := email
        password_hash := bcryptHash password
        role := .USER
        auth_provider := .LOCAL
        avatar_url := none
        email_verified := false
        created_at := now
        updated_at := now }
    let token := generateToken newUser.id (roleToString newUser.role) secret now
    (store ++ [newUser], .ok (token, registerUserView newUser))

/-- `loginUser(email, password)`: distinct 401 `AUTH_ERROR` failures for a
missing account, a non-LOCAL provider, and a wrong password; on success,
issue a token and return the explicit `userResponse`.  The store is never
written. -/
def loginUser (store : Store) (email password : String)
    (secret : String) (now : Nat) :
    Store × Except JsonObj (Token × JsonObj) :=
  match findByEmail store email with
  | none =>
    (store, .error (createError "No existe una cuenta con este correo electrónico" 401 "AUTH_ERROR"))
  | some user =>
    if user.auth_provider ≠ AuthProvider.LOCAL then
      (store, .error (createError "Por favor, inicia sesión con el método de autenticación correcto" 401 "AUTH_ERROR"))
    else
      let passwordToCompare := user.password_hash
      if !(bcryptCompare password passwordToCompare) then
        (store, .error (createError "Contraseña incorrecta" 401 "AUTH_ERROR"))
      else
        (store, .ok (generateToken user.id (roleToString user.role) secret now, loginUserView user))

/-- `getUserProfile(userId)`: 404 when the id does not resolve, else the
`select` result (which includes `password_hash`) with defaulted optional
fields. -/
def getUserProfile (store : Store) (userId : Nat) : Except JsonObj JsonObj :=
  match findById store userId with
  | none => .error (createError "Usuario no encontrado" 404 "NOT_FOUND")
  | some user => .ok (profileView user)

/-- `email.split('@')[0]`. -/
def emailLocal (email : String) : String :=
  (email.splitOn "@").headD ""

/-- `email.includes('@')`: whether some character of the email is `@`. -/
def emailHasAt (email : String) : Bool :=
  email.data.contains '@'

/-- `!user.avatar_url && avatar`: backfill the avatar only when the stored
one is falsy and a truthy one is supplied. -/
def wantAvatarBackfill (u : UserRecord) (avatar : Option String) : Bool :=
  !(strTruthy u.avatar_url) && strTruthy avatar

/-- `!user.name || user.name === "Usuario de Google"`: backfill the name
when it is empty or still the placeholder. -/
def wantNameBackfill (u : UserRecord) : Bool :=
  (u.name == "") || (u.name == "Usuario de Google")

/-- `findOrCreateGoogleUser(email, name, avatar)`: validate the email;
reject an existing non-GOOGLE account with no store change; create a new
GOOGLE record when absent (`password_hash: ''`, `email_verified: true`,
avatar only when truthy, display name defaulted from the email local
part); for an existing GOOGLE record build `updateData` starting from
`updated_at` and only call `update` when some backfill key was added —
an `update` failure is swallowed and the pre-update record is used.
`createFails`/`updateFails` model the fallibility of the two store
writes. -/
def findOrCreateGoogleUser (store : Store) (email name : String) (avatar : Option String)
    (secret : String) (now freshId : Nat) (createFails updateFails : Bool) :
    Store × Except JsonObj (Token × JsonObj) :=
  if email == "" || !(emailHasAt email) then
    (store, .error (createError "El correo electrónico no es válido" 400 "VALIDATION_ERROR"))
  else
    match findByEmail store email with
    | some user =>
      if user.auth_provider ≠ AuthProvider.GOOGLE then
        (store, .error (createError "Este correo ya está registrado con otro método de autenticación. Por favor, inicia sesión con el método original." 400 "AUTH_ERROR"))
      else
        if wantAvatarBackfill user avatar || wantNameBackfill user then
          if updateFails then
            (store, .ok (generateToken user.id (roleToString user.role) secret now, googleUserView user))
          else
            let user' : UserRecord :=
              { user with
                updated_at := now
                avatar_url := if wantAvatarBackfill user avatar then avatar else user.avatar_url
                name :=
                  if wantNameBackfill user then
                    (if name == "" then emailLocal email else name)
                  else
                    user.name }
            (updateById store user.id user',
             .ok (generateToken user'.id (roleToString user'.role) secret now, googleUserView user'))
        else
          (store, .ok (generateToken user.id (roleToString user.role) secret now, googleUserView user))
    | none =>
      if createFails then
        (store, .error (createError "Error al crear el usuario" 500 "DATABASE_ERROR"))
      else
        let displayName := if name.trim == "" then emailLocal email else name.trim
        let newUser : UserRecord :=
          { id := freshId
            name := displayName
            email := email
            password_hash := ""
            role := .USER
            auth_provider := .GOOGLE
            avatar_url := if strTruthy avatar then avatar else none
            email_verified := true
            created_at := now
            updated_at := now }
        (store ++ [newUser],
         .ok (generateToken newUser.id (roleToString newUser.role) secret now, googleUserView newUser))

/-! ## Controller layer (auth controller's `loginHandler` + global handler) -/

/-- `loginHandler`: missing fields become a 400 validation error; a service
error is matched against `error.type === 'AUTH_ERROR'` — but `createError`
sets `errorType`, never `type`, so the test is always false and the
original error reaches the global `errorHandler` unchanged.  The result is
what the HTTP client observes. -/
def loginHandler (store : Store) (email password : String)
    (secret : String) (now : Nat) :
    Except HttpErrorResponse (Token × JsonObj) :=
  if email == "" || password == "" then
    .error (errorHandler (createError "Email y contraseña son requeridos" 400 "VALIDATION_ERROR"))
  else
    match (loginUser store email password secret now).2 with
    | .ok (token, userView) =>
      .ok (token,
        [("id", (getField userView "id").getD .null),
         ("name", (getField userView "name").getD .null),
         ("email", (getField userView "email").getD .null),
         ("role", (getField userView "role").getD .null)])
    | .error e =>
      if getField e "type" = some (.str "AUTH_ERROR") then
        .error (errorHandler (unauthorized "Correo o contraseña incorrectos"))
      else
        .error (errorHandler e)

/-! ## Shared helper definitions and lemmas -/

/-- A token whose lifetime is exactly 7 days (604800 seconds) from its
issued-at claim. -/
def tokenHasFixedLifetime : Token → Prop
  | .malformed => False
  | .signed p _ => p.exp = p.iat + 7 * 24 * 60 * 60

/-- The fixed-lifetime property lifted to the result of a store-threading
Auth Service operation: every issued token has the 7-day lifetime. -/
def resultTokenLifetimeOk : Store × Except JsonObj (Token × JsonObj) → Prop
  | (_, .ok (t, _)) => tokenHasFixedLifetime t
  | (_, .error _) => True

theorem findById_updateById_self (s : Store) (i : Nat) (v : UserRecord)
    (hv : v.id = i) (h : (findById s i).isSome) :
    findById (updateById s i v) i = some v := by
  induction s with
  | nil => simp [findById] at h
  | cons u rest ih =>
    by_cases hu : u.id = i
    · simp [findById, updateById, hu, hv]
    · simp [findById, updateById, hu] at h ⊢
      exact ih h

theorem findById_updateById_ne (s : Store) (i j : Nat) (v : UserRecord)
    (hv : v.id = i) (hne : j ≠ i) :
    findById (updateById s i v) j = findById s j := by
  induction s with
  | nil => simp [updateById]
  | cons u rest ih =>
    by_cases hu : u.id = i
    · have hvj : ¬v.id = j := by rw [hv]; exact fun h => hne h.symm
      have huj : ¬u.id = j := by rw [hu]; exact fun h => hne h.symm
      have hij : ¬i = j := fun h => hne h.symm
      simp [findById, updateById, hu, hvj, huj, hij]
    · simp [findById, updateById, hu, ih]

/-! ## Claims -/

/-- C1. Token round-trip: for every user id and role, verifying a token
with the `authenticate` middleware immediately after `generateToken`
issued it succeeds, and attaches to the request exactly that subject id
rendered as a string and that role, together with the issued-at and the
7-day expiry. -/
theorem token_roundtrip (uid : Nat) (role secret : String) (now : Nat) :
    authenticate (some (generateToken uid role secret now)) secret now
      = AuthenticateResult.ok (toString uid) role now (now + 7 * 24 * 60 * 60) := by
  simp [authenticate, generateToken, jwtVerify]

/-- C9. Fixed token lifetime: `generateToken` always embeds
`exp = iat + 604800`, and every token issued by any of the three
token-issuing Auth Service operations (registration, local login, OAuth
login) has exactly that lifetime. -/
theorem fixed_seven_day_lifetime :
    (∀ (uid : Nat) (role secret : String) (now : Nat),
      tokenHasFixedLifetime (generateToken uid role secret now))
    ∧ (∀ (store : Store) (name email password secret : String) (now freshId : Nat),
      resultTokenLifetimeOk (registerUser store name email password secret now freshId))
    ∧ (∀ (store : Store) (email password secret : String) (now : Nat),
      resultTokenLifetimeOk (loginUser store email password secret now))
    ∧ (∀ (store : Store) (email name : String) (avatar : Option String)
        (secret : String) (now freshId : Nat) (cf uf : Bool),
      resultTokenLifetimeOk (findOrCreateGoogleUser store email name avatar secret now freshId cf uf)) := by
  refine ⟨fun uid role secret now => rfl, ?_, ?_, ?_⟩
  · intro store name email password secret now freshId
    unfold registerUser
    cases findByEmail store email <;>
      simp [resultTokenLifetimeOk, tokenHasFixedLifetime, generateToken]
  · intro store email password secret now
    unfold loginUser
    cases findByEmail store email with
    | none => simp [resultTokenLifetimeOk]
    | some user =>
      by_cases hp : user.auth_provider = AuthProvider.LOCAL <;>
        by_cases hc : bcryptCompare password user.password_hash <;>
          simp [hp, hc, resultTokenLifetimeOk, tokenHasFixedLifetime, generateToken]
  · intro store email name avatar secret now freshId cf uf
    unfold findOrCreateGoogleUser
    repeat' split
    all_goals simp [resultTokenLifetimeOk, tokenHasFixedLifetime, generateToken]

/-- C4. A well-formed, correctly signed token whose expiry has passed is
rejected by `jwt.verify` with the Expired outcome — never Invalid — and
the `authenticate` middleware reports it as 401 "Token expirado"; the
three rejection outcomes (invalid signature, expired, malformed) are
pairwise distinct values, so the caller can report them distinctly. -/
theorem expired_token_rejected (p : JwtPayload) (secret : String) (now : Nat)
    (hexp : p.exp ≤ now) :
    jwtVerify (Token.signed p secret) secret now = .error .tokenExpired
    ∧ jwtVerify (Token.signed p secret) secret now ≠ .error .invalidSignature
    ∧ authenticate (some (Token.signed p secret)) secret now
        = .err (unauthorized "Token expirado")
    ∧ errorHandler (unauthorized "Token expirado")
        = { status := 401, type := "UNAUTHORIZED", message := "Token expirado" }
    ∧ JwtError.tokenExpired ≠ JwtError.invalidSignature
    ∧ JwtError.tokenExpired ≠ JwtError.malformedJwt
    ∧ JwtError.invalidSignature ≠ JwtError.malformedJwt := by
  refine ⟨?_, ?_, ?_, by rfl, by simp, by simp, by simp⟩
  · simp [jwtVerify, hexp]
  · simp [jwtVerify, hexp]
  · simp [authenticate, jwtVerify, hexp]

/-- Witness for C4 at a concrete expired token. -/
theorem expired_token_rejected_witness :
    (⟨"1", "USER", 0, 5⟩ : JwtPayload).exp ≤ 10
    ∧ jwtVerify (Token.signed ⟨"1", "USER", 0, 5⟩ "s") "s" 10
        = .error .tokenExpired :=
  ⟨by decide, (expired_token_rejected ⟨"1", "USER", 0, 5⟩ "s" 10 (by decide)).1⟩

/-- C2. An OAuth (Google) login with an email already registered under the
LOCAL provider fails with the account-exists-with-different-provider
error (400, AUTH_ERROR), and the credential store is returned completely
unchanged: no record is created and no field of any record is modified. -/
theorem oauth_local_conflict_no_mutation (store : Store) (email name : String)
    (avatar : Option String) (secret : String) (now freshId : Nat)
    (createFails updateFails : Bool) (u : UserRecord)
    (hne : (email == "") = false) (hat : emailHasAt email = true)
    (hfind : findByEmail store email = some u)
    (hprov : u.auth_provider = AuthProvider.LOCAL) :
    findOrCreateGoogleUser store email name avatar secret now freshId createFails updateFails
      = (store,
         .error (createError "Este correo ya está registrado con otro método de autenticación. Por favor, inicia sesión con el método original." 400 "AUTH_ERROR")) := by
  unfold findOrCreateGoogleUser
  simp [hne, hat, hfind, hprov]

/-- Witness for C2: a LOCAL account, then a Google login with its email. -/
theorem oauth_local_conflict_no_mutation_witness :
    findOrCreateGoogleUser
        [⟨1, "Ana", "ana@x.com", bcryptHash "Passw0rd!", Role.USER, AuthProvider.LOCAL, none, false, 10, 10⟩]
        "ana@x.com" "Ana G" (some "http://pic") "s" 20 2 false false
      = ([⟨1, "Ana", "ana@x.com", bcryptHash "Passw0rd!", Role.USER, AuthProvider.LOCAL, none, false, 10, 10⟩],
         .error (createError "Este correo ya está registrado con otro método de autenticación. Por favor, inicia sesión con el método original." 400 "AUTH_ERROR")) :=
  oauth_local_conflict_no_mutation _ _ _ _ _ _ _ _ _
    ⟨1, "Ana", "ana@x.com", bcryptHash "Passw0rd!", Role.USER, AuthProvider.LOCAL, none, false, 10, 10⟩
    (by decide) (by decide) rfl rfl

/-- C5. Registration: a duplicate email fails with EmailAlreadyExists
(400, AUTH_ERROR) and creates nothing; a fresh email creates exactly one
record with provider LOCAL, role USER and `email_verified = false`, and
returns a token whose subject is the new id as a string with role USER. -/
theorem registerUser_spec (store : Store) (name email password secret : String)
    (now freshId : Nat) :
    ((∃ u, findByEmail store email = some u) →
      registerUser store name email password secret now freshId
        = (store, .error (createError "El correo electrónico ya está registrado" 400 "AUTH_ERROR")))
    ∧ (findByEmail store email = none →
      ∃ view,
        registerUser store name email password secret now freshId
          = (store ++
              [{ id := freshId, name := name, email := email,
                 password_hash := bcryptHash password, role := Role.USER,
                 auth_provider := AuthProvider.LOCAL, avatar_url := none,
                 email_verified := false, created_at := now, updated_at := now }],
             .ok (Token.signed
                    { userId := toString freshId, role := "USER",
                      iat := now, exp := now + 7 * 24 * 60 * 60 } secret,
                  view))) := by
  constructor
  · rintro ⟨u, hu⟩
    unfold registerUser
    rw [hu]
  · intro h
    unfold registerUser
    simp only [h]
    exact ⟨_, rfl⟩

/-- Witness for C5: both branches at concrete inputs. -/
theorem registerUser_spec_witness :
    registerUser
        [⟨1, "Bea", "bea@x.com", bcryptHash "pw", Role.USER, AuthProvider.LOCAL, none, false, 5, 5⟩]
        "Bea" "bea@x.com" "otherpw" "s" 20 2
      = ([⟨1, "Bea", "bea@x.com", bcryptHash "pw", Role.USER, AuthProvider.LOCAL, none, false, 5, 5⟩],
         .error (createError "El correo electrónico ya está registrado" 400 "AUTH_ERROR"))
    ∧ ∃ view,
        registerUser [] "Ana" "ana@x.com" "Passw0rd!" "s" 100 1
          = ([{ id := 1, name := "Ana", email := "ana@x.com",
                password_hash := bcryptHash "Passw0rd!", role := Role.USER,
                auth_provider := AuthProvider.LOCAL, avatar_url := none,
                email_verified := false, created_at := 100, updated_at := 100 }],
             .ok (Token.signed
                    { userId := "1", role := "USER", iat := 100, exp := 100 + 7 * 24 * 60 * 60 } "s",
                  view)) :=
  ⟨(registerUser_spec
      [⟨1, "Bea", "bea@x.com", bcryptHash "pw", Role.USER, AuthProvider.LOCAL, none, false, 5, 5⟩]
      "Bea" "bea@x.com" "otherpw" "s" 20 2).1
        ⟨⟨1, "Bea", "bea@x.com", bcryptHash "pw", Role.USER, AuthProvider.LOCAL, none, false, 5, 5⟩, rfl⟩,
   (registerUser_spec [] "Ana" "ana@x.com" "Passw0rd!" "s" 100 1).2 rfl⟩

/-- C6. Local login against an account whose provider is not LOCAL fails
with the wrong-provider message (401, AUTH_ERROR) for every supplied
password, never authenticates, and leaves the store untouched. -/
theorem login_wrong_provider (store : Store) (email password secret : String)
    (now : Nat) (u : UserRecord)
    (hfind : findByEmail store email = some u)
    (hprov : u.auth_provider ≠ AuthProvider.LOCAL) :
    loginUser store email password secret now
      = (store,
         .error (createError "Por favor, inicia sesión con el método de autenticación correcto" 401 "AUTH_ERROR")) := by
  unfold loginUser
  rw [hfind]
  simp [hprov]

/-- Witness for C6: a GOOGLE account attacked with an arbitrary password. -/
theorem login_wrong_provider_witness :
    loginUser
        [⟨1, "Gus", "gus@x.com", "", Role.USER, AuthProvider.GOOGLE, none, true, 5, 5⟩]
        "gus@x.com" "whatever" "s" 20
      = ([⟨1, "Gus", "gus@x.com", "", Role.USER, AuthProvider.GOOGLE, none, true, 5, 5⟩],
         .error (createError "Por favor, inicia sesión con el método de autenticación correcto" 401 "AUTH_ERROR")) :=
  login_wrong_provider _ _ _ _ _
    ⟨1, "Gus", "gus@x.com", "", Role.USER, AuthProvider.GOOGLE, none, true, 5, 5⟩
    rfl (by simp)

/-- C7. Two-run indistinguishability at the client-observable level: a
login with a wrong password for a registered LOCAL account and a login
with an unknown email both reach the global error handler as operational
401 AUTH_ERROR failures, so the client sees the same status code and the
same error-type tag in both runs (the messages differ, but the claim is
about status and type). -/
theorem login_failure_uniform_status_type
    (store : Store) (email1 pw1 email2 pw2 secret : String) (now : Nat) (u : UserRecord)
    (h1 : findByEmail store email1 = some u)
    (hL : u.auth_provider = AuthProvider.LOCAL)
    (hw : bcryptCompare pw1 u.password_hash = false)
    (he1 : (email1 == "") = false) (hp1 : (pw1 == "") = false)
    (h2 : findByEmail store email2 = none)
    (he2 : (email2 == "") = false) (hp2 : (pw2 == "") = false) :
    loginHandler store email1 pw1 secret now
      = .error { status := 401, type := "AUTH_ERROR", message := "Contraseña incorrecta" }
    ∧ loginHandler store email2 pw2 secret now
      = .error { status := 401, type := "AUTH_ERROR",
                 message := "No existe una cuenta con este correo electrónico" } := by
  constructor
  · have e1 : loginUser store email1 pw1 secret now
        = (store, .error (createError "Contraseña incorrecta" 401 "AUTH_ERROR")) := by
      unfold loginUser
      rw [h1]
      simp [hL, hw]
    unfold loginHandler
    rw [e1]
    simp [he1, hp1]
    rfl
  · have e2 : loginUser store email2 pw2 secret now
        = (store, .error (createError "No existe una cuenta con este correo electrónico" 401 "AUTH_ERROR")) := by
      unfold loginUser
      rw [h2]
    unfold loginHandler
    rw [e2]
    simp [he2, hp2]
    rfl

/-- Witness for C7: wrong password on a real LOCAL account versus an
unknown email, both at concrete inputs. -/
theorem login_failure_uniform_status_type_witness :
    loginHandler
        [⟨1, "Ana", "ana@x.com", bcryptHash "correcta", Role.USER, AuthProvider.LOCAL, none, false, 10, 10⟩]
        "ana@x.com" "incorrecta" "s" 20
      = .error { status := 401, type := "AUTH_ERROR", message := "Contraseña incorrecta" }
    ∧ loginHandler
        [⟨1, "Ana", "ana@x.com", bcryptHash "correcta", Role.USER, AuthProvider.LOCAL, none, false, 10, 10⟩]
        "nadie@x.com" "loquesea" "s" 20
      = .error { status := 401, type := "AUTH_ERROR",
                 message := "No existe una cuenta con este correo electrónico" } :=
  login_failure_uniform_status_type _ "ana@x.com" "incorrecta" "nadie@x.com" "loquesea" "s" 20
    ⟨1, "Ana", "ana@x.com", bcryptHash "correcta", Role.USER, AuthProvider.LOCAL, none, false, 10, 10⟩
    rfl rfl (by decide) (by decide) (by decide) rfl (by decide) (by decide)

/-- C3. Password-hash exclusion across the Auth Service: the user views
returned by local login, registration and OAuth login never carry a
`password_hash` field, for any stored record; but `getUserProfile`
selects `password_hash` and spreads it into its result, so the profile
operation does return the stored hash to its caller (contradicting the
service's own doc comment "sin la contraseña"). -/
theorem password_hash_exposure :
    (∀ u : UserRecord, hasField (loginUserView u) "password_hash" = false)
    ∧ (∀ u : UserRecord, hasField (registerUserView u) "password_hash" = false)
    ∧ (∀ u : UserRecord, hasField (googleUserView u) "password_hash" = false)
    ∧ getUserProfile
        [⟨1, "Ana", "ana@x.com", bcryptHash "pw", Role.USER, AuthProvider.LOCAL, none, false, 10, 10⟩] 1
        = .ok (profileView ⟨1, "Ana", "ana@x.com", bcryptHash "pw", Role.USER, AuthProvider.LOCAL, none, false, 10, 10⟩)
    ∧ hasField
        (profileView ⟨1, "Ana", "ana@x.com", bcryptHash "pw", Role.USER, AuthProvider.LOCAL, none, false, 10, 10⟩)
        "password_hash" = true
    ∧ getField
        (profileView ⟨1, "Ana", "ana@x.com", bcryptHash "pw", Role.USER, AuthProvider.LOCAL, none, false, 10, 10⟩)
        "password_hash" = some (.str (bcryptHash "pw")) :=
  ⟨fun _ => rfl, fun _ => rfl, fun _ => rfl, rfl, rfl, rfl⟩

/-- Store effect of a Google login against an existing GOOGLE account with
`updateFails = false`: the record is rewritten through `updateById` only
when some backfill key joined `updated_at` in `updateData`; otherwise no
update is issued at all. -/
theorem google_update_store_characterization
    (store : Store) (email name : String) (avatar : Option String) (secret : String)
    (now freshId : Nat) (cf : Bool) (u : UserRecord)
    (hne : (email == "") = false) (hat : emailHasAt email = true)
    (hfind : findByEmail store email = some u)
    (hprov : u.auth_provider = AuthProvider.GOOGLE) :
    (findOrCreateGoogleUser store email name avatar secret now freshId cf false).1
      = if wantAvatarBackfill u avatar || wantNameBackfill u then
          updateById store u.id
            { u with
              updated_at := now
              avatar_url := if wantAvatarBackfill u avatar then avatar else u.avatar_url
              name :=
                if wantNameBackfill u then (if name == "" then emailLocal email else name)
                else u.name }
        else store := by
  unfold findOrCreateGoogleUser
  by_cases hc : wantAvatarBackfill u avatar || wantNameBackfill u <;>
    simp [hne, hat, hfind, hprov, hc]

/-- C8 counterexample: an existing GOOGLE account with a non-empty,
non-placeholder name and a non-empty avatar.  The Google login succeeds
but issues no update at all, so `updated_at` keeps its old value 100
instead of the login time 200 — refuting "the operation refreshes
updated_at". -/
theorem google_login_no_refresh_counterexample :
    (findOrCreateGoogleUser
        [⟨1, "Alice", "a@x.com", "", Role.USER, AuthProvider.GOOGLE, some "http://pic", true, 100, 100⟩]
        "a@x.com" "Alicia" (some "http://nuevo") "s" 200 2 false false).1
      = [⟨1, "Alice", "a@x.com", "", Role.USER, AuthProvider.GOOGLE, some "http://pic", true, 100, 100⟩]
    ∧ ((findOrCreateGoogleUser
        [⟨1, "Alice", "a@x.com", "", Role.USER, AuthProvider.GOOGLE, some "http://pic", true, 100, 100⟩]
        "a@x.com" "Alicia" (some "http://nuevo") "s" 200 2 false false).2).isOk = true
    ∧ ¬ findById
        (findOrCreateGoogleUser
          [⟨1, "Alice", "a@x.com", "", Role.USER, AuthProvider.GOOGLE, some "http://pic", true, 100, 100⟩]
          "a@x.com" "Alicia" (some "http://nuevo") "s" 200 2 false false).1 1
        = some ⟨1, "Alice", "a@x.com", "", Role.USER, AuthProvider.GOOGLE, some "http://pic", true, 100, 200⟩ :=
  ⟨rfl, rfl, by decide⟩

/-- C8 (amended). Google login on an existing GOOGLE account: when some
backfill applies (avatar currently falsy with a truthy avatar supplied,
or name empty or equal to the placeholder "Usuario de Google"), the
record gets `updated_at := now` and exactly the applicable backfills,
every other field being preserved; when no backfill applies, no write
happens at all — `updated_at` included.  Records with other ids are
never touched. -/
theorem google_login_backfill_frame
    (store : Store) (email name : String) (avatar : Option String) (secret : String)
    (now freshId : Nat) (cf : Bool) (u : UserRecord)
    (hne : (email == "") = false) (hat : emailHasAt email = true)
    (hfind : findByEmail store email = some u)
    (hid : findById store u.id = some u)
    (hprov : u.auth_provider = AuthProvider.GOOGLE) :
    ((wantAvatarBackfill u avatar || wantNameBackfill u) = false →
      (findOrCreateGoogleUser store email name avatar secret now freshId cf false).1 = store)
    ∧ ((wantAvatarBackfill u avatar || wantNameBackfill u) = true →
      findById (findOrCreateGoogleUser store email name avatar secret now freshId cf false).1 u.id
        = some { u with
                 updated_at := now
                 avatar_url := if wantAvatarBackfill u avatar then avatar else u.avatar_url
                 name :=
                   if wantNameBackfill u then (if name == "" then emailLocal email else name)
                   else u.name })
    ∧ (∀ j, j ≠ u.id →
      findById (findOrCreateGoogleUser store email name avatar secret now freshId cf false).1 j
        = findById store j) := by
  have hchar := google_update_store_characterization store email name avatar secret now freshId cf u
    hne hat hfind hprov
  refine ⟨?_, ?_, ?_⟩
  · intro hno
    rw [hchar, hno]
    simp
  · intro hyes
    rw [hchar, hyes]
    simp only [if_true]
    exact findById_updateById_self store u.id _ rfl (by rw [hid]; rfl)
  · intro j hj
    rw [hchar]
    by_cases hc : wantAvatarBackfill u avatar || wantNameBackfill u
    · simp only [hc, if_true]
      exact findById_updateById_ne store u.id j _ rfl hj
    · simp [hc]

/-- Witness for C8 (amended): the no-backfill branch on a fully-populated
record and the backfill branch on a placeholder-named record. -/
theorem google_login_backfill_frame_witness :
    (findOrCreateGoogleUser
        [⟨1, "Alice", "a@x.com", "", Role.USER, AuthProvider.GOOGLE, some "http://pic", true, 100, 100⟩]
        "a@x.com" "Alicia" (some "http://nuevo") "s" 200 2 false false).1
      = [⟨1, "Alice", "a@x.com", "", Role.USER, AuthProvider.GOOGLE, some "http://pic", true, 100, 100⟩]
    ∧ findById
        (findOrCreateGoogleUser
          [⟨1, "Usuario de Google", "g@x.com", "", Role.USER, AuthProvider.GOOGLE, none, true, 50, 50⟩]
          "g@x.com" "Gabi" (some "http://foto") "s" 200 2 false false).1 1
      = some ⟨1, "Gabi", "g@x.com", "", Role.USER, AuthProvider.GOOGLE, some "http://foto", true, 50, 200⟩ :=
  ⟨(google_login_backfill_frame
      [⟨1, "Alice", "a@x.com", "", Role.USER, AuthProvider.GOOGLE, some "http://pic", true, 100, 100⟩]
      "a@x.com" "Alicia" (some "http://nuevo") "s" 200 2 false
      ⟨1, "Alice", "a@x.com", "", Role.USER, AuthProvider.GOOGLE, some "http://pic", true, 100, 100⟩
      (by decide) (by decide) rfl rfl rfl).1 (by decide),
   (google_login_backfill_frame
      [⟨1, "Usuario de Google", "g@x.com", "", Role.USER, AuthProvider.GOOGLE, none, true, 50, 50⟩]
      "g@x.com" "Gabi" (some "http://foto") "s" 200 2 false
      ⟨1, "Usuario de Google", "g@x.com", "", Role.USER, AuthProvider.GOOGLE, none, true, 50, 50⟩
      (by decide) (by decide) rfl rfl rfl).2.1 (by decide)⟩

/-- C10. When the backfill update of an existing GOOGLE account fails in
the store, `findOrCreateGoogleUser` swallows the failure: it still
succeeds, issues the token, returns the pre-update user view, and the
store keeps its pre-update contents. -/
theorem google_update_failure_swallowed
    (store : Store) (email name : String) (avatar : Option String) (secret : String)
    (now freshId : Nat) (cf : Bool) (u : UserRecord)
    (hne : (email == "") = false) (hat : emailHasAt email = true)
    (hfind : findByEmail store email = some u)
    (hprov : u.auth_provider = AuthProvider.GOOGLE)
    (hneed : (wantAvatarBackfill u avatar || wantNameBackfill u) = true) :
    findOrCreateGoogleUser store email name avatar secret now freshId cf true
      = (store, .ok (generateToken u.id (roleToString u.role) secret now, googleUserView u)) := by
  unfold findOrCreateGoogleUser
  simp [hne, hat, hfind, hprov, hneed]

/-- Witness for C10: a failing backfill update still yields a success with
the pre-update record. -/
theorem google_update_failure_swallowed_witness :
    findOrCreateGoogleUser
        [⟨1, "Usuario de Google", "g@x.com", "", Role.USER, AuthProvider.GOOGLE, none, true, 50, 50⟩]
        "g@x.com" "Gabi" (some "http://foto") "s" 200 2 false true
      = ([⟨1, "Usuario de Google", "g@x.com", "", Role.USER, AuthProvider.GOOGLE, none, true, 50, 50⟩],
         .ok (generateToken 1 (roleToString Role.USER) "s" 200,
              googleUserView ⟨1, "Usuario de Google", "g@x.com", "", Role.USER, AuthProvider.GOOGLE, none, true, 50, 50⟩)) :=
  google_update_failure_swallowed _ "g@x.com" "Gabi" (some "http://foto") "s" 200 2 false
    ⟨1, "Usuario de Google", "g@x.com", "", Role.USER, AuthProvider.GOOGLE, none, true, 50, 50⟩
    (by decide) (by decide) rfl rfl (by decide)

end Naturist
